import Mathlib

/-!
Verification development for the `cc-builder` repository
(`not_cloud_init`): a CLI tool that gathers host facts through five
configuration modules (apt, snap, ssh, user, hostname) and assembles a
cloud-init document.

The file shallowly embeds `src/not_cloud_init/cli.py` as pure Lean
functions over an explicit environment (filesystem existence oracle and
scripted operator responses) producing an event trace and an outcome.
The assembly engine (`create_cloud_init_config` / the generator) is not
part of the provided sources, so it is modelled from the specification
where claims require it; those definitions say so in their doc comments.
-/

namespace NotCloudInit

/-- The default output path used by the CLI (`default_output_path` in
`cli.py`). -/
def default_output_path : String := "cloud-config.yaml"

/-- The CLI flags of the `cli` command in `cli.py`, one field per
`click.option`. -/
structure Flags where
  interactive : Bool
  quiet : Bool
  outputPath : String
  force : Bool
  enableHostname : Bool
  gatherPublicKeys : Bool
  password : Option String
  disableApt : Bool
  disableSnap : Bool
  disableSsh : Bool
  disableUser : Bool
  renameToUbuntuUser : Bool
deriving DecidableEq, Repr

/-- The default invocation: every flag at its `click` default, the output
path at `default_output_path`. -/
def defaultFlags : Flags :=
  { interactive := false
    quiet := false
    outputPath := default_output_path
    force := false
    enableHostname := false
    gatherPublicKeys := false
    password := none
    disableApt := false
    disableSnap := false
    disableSsh := false
    disableUser := false
    renameToUbuntuUser := false }

/-- The arguments `cli` passes to `create_cloud_init_config`. -/
structure GeneratorArgs where
  outputPath : String
  interactive : Bool
  gatherPublicKeys : Bool
  password : Option String
  disabledConfigs : List String
  renameToUbuntuUser : Bool
  quiet : Bool
deriving DecidableEq, Repr

/-- Observable effects of a CLI run: console messages, the interactive
path prompt, the overwrite confirmation, filesystem existence checks
(`os.path.exists`), and the invocation of the generator. -/
inductive Event where
  | printError (msg : String)
  | printWarning (msg : String)
  | printInfo (msg : String)
  | promptPath
  | confirmOverwrite (path : String)
  | fsExistsCheck (path : String)
  | generatorCall (args : GeneratorArgs)
deriving DecidableEq, Repr

/-- The run environment: what `os.path.exists` answers for each path, the
path the operator types at the interactive prompt, and the operator's
answer to the overwrite confirmation. -/
structure Env where
  pathExists : String → Bool
  promptResponse : String
  confirmResponse : Bool

/-- Whether the run terminated through `sys.exit` (with its code) or fell
through normally. -/
inductive Outcome where
  | exited (code : Nat)
  | completed
deriving DecidableEq, Repr

/-- The error message printed when interactive mode is combined with a
disable/enable flag (`cli.py` line 125). -/
def conflictMsg : String :=
  "Cannot use interactive mode with disabling or enabling specific configurations."

/-- The error printed when the output file exists and force was not given
(`cli.py` line 131). -/
def existsErrMsg (p : String) : String :=
  "Output file " ++ p ++ " already exists. Use --force or -f to allow writing over existing file"

/-- The warning printed on the force path (`cli.py` line 134). -/
def overwriteWarnMsg (p : String) : String :=
  "Output file " ++ p ++ " already exists. Will overwrite file."

/-- The info message of `get_output_path` (`cli.py` line 177). -/
def selectedInfoMsg (p : String) : String :=
  p ++ " has been selected as the output path."

/-- The error printed when the operator declines the overwrite
confirmation (`cli.py` line 187). -/
def declineErrMsg : String :=
  "Aborting because the file already exists and the user chose not to overwrite."

/-- Embedding of `get_output_path` (`cli.py` lines 162-190): prompt for a
path only when the caller left the default, announce the selection, and
on an existing file ask for overwrite confirmation, aborting (`none`)
when the operator declines. Returns the emitted events and `some` chosen
path, or `none` for `sys.exit(1)`. -/
def get_output_path (env : Env) (outputPath : String) : List Event × Option String :=
  let (evs0, path) :=
    if outputPath = default_output_path then
      ([Event.promptPath], env.promptResponse)
    else
      ([], outputPath)
  let evs1 := evs0 ++ [Event.printInfo (selectedInfoMsg path), Event.fsExistsCheck path]
  if env.pathExists path then
    let evs2 := evs1 ++ [Event.confirmOverwrite path]
    if env.confirmResponse then
      (evs2, some path)
    else
      (evs2 ++ [Event.printError declineErrMsg], none)
  else
    (evs1, some path)

/-- The `disabled_configs` list built by `cli` (`cli.py` lines 137-147):
apt, snap, ssh and user are appended when their disable flag was passed;
hostname is appended when `--enable-hostname` was NOT passed. -/
def disabled_configs (f : Flags) : List String :=
  (if f.disableApt then ["apt"] else []) ++
  (if f.disableSnap then ["snap"] else []) ++
  (if f.disableSsh then ["ssh"] else []) ++
  (if f.disableUser then ["user"] else []) ++
  (if f.enableHostname then [] else ["hostname"])

/-- Whether the interactive/disable-enable conflict of `cli.py` line 124
fires. -/
def hasConflict (f : Flags) : Bool :=
  f.interactive &&
    (f.disableApt || f.disableSnap || f.disableSsh || f.disableUser || f.enableHostname)

/-- Embedding of the `cli` command body (`cli.py` lines 117-157): the
conflict check, the output-path branch chain, and the final generator
invocation. Returns the emitted events and the run outcome. -/
def cli (env : Env) (f : Flags) : List Event × Outcome :=
  if hasConflict f then
    ([Event.printError conflictMsg], Outcome.exited 1)
  else
    let (evs, chosen) :=
      if f.interactive && !f.force then
        get_output_path env f.outputPath
      else
        let evs0 := [Event.fsExistsCheck f.outputPath]
        if env.pathExists f.outputPath && !f.force then
          (evs0 ++ [Event.printError (existsErrMsg f.outputPath)], none)
        else if f.force then
          (evs0 ++ [Event.printWarning (overwriteWarnMsg f.outputPath)], some f.outputPath)
        else
          (evs0, some f.outputPath)
    match chosen with
    | none => (evs, Outcome.exited 1)
    | some path =>
        (evs ++ [Event.generatorCall
          { outputPath := path
            interactive := f.interactive
            gatherPublicKeys := f.gatherPublicKeys
            password := f.password
            disabledConfigs := disabled_configs f
            renameToUbuntuUser := f.renameToUbuntuUser
            quiet := f.quiet }],
         Outcome.completed)

/-- Modelled from the spec: the closed set of module names
("ModuleName: one of a fixed closed set {apt, snap, ssh, user,
hostname}"); the generator and module sources are not under `src/`. -/
inductive ModuleName where
  | apt
  | snap
  | ssh
  | user
  | hostname
deriving DecidableEq, Repr

/-- Modelled from the spec: the fixed module order "apt, snap, ssh,
user, hostname" in which the Assembly Engine invokes modules. -/
def moduleOrder : List ModuleName :=
  [ModuleName.apt, ModuleName.snap, ModuleName.ssh, ModuleName.user, ModuleName.hostname]

/-- The same fixed order, as the string names used by the CLI's
`disabled_configs` list. -/
def moduleOrderNames : List String :=
  ["apt", "snap", "ssh", "user", "hostname"]

/-- Modelled from the spec: the immutable `GatherContext` shared by all
modules (interactive flag, gather-public-keys flag, optional password,
rename-to-ubuntu-user flag). -/
structure GatherContext where
  interactive : Bool
  gatherPublicKeys : Bool
  password : Option String
  renameToUbuntuUser : Bool
deriving DecidableEq, Repr

/-- Modelled from the spec: a document value — scalar, sequence, or
nested mapping. -/
inductive Value where
  | scalar (s : String)
  | seq (items : List Value)
  | mapping (entries : List (String × Value))

/-- Modelled from the spec: a Fragment is a partial structured document,
a mapping from document-section-key to value, produced by one module. -/
abbrev Fragment : Type := List (String × Value)

/-- Modelled from the spec: the final merged Document, a mapping keyed by
top-level section name. -/
abbrev Document : Type := List (String × Value)

/-- Modelled from the spec: a module's gather step returns either a
Fragment, an explicit "disabled, no contribution" marker, or a gathering
error. -/
inductive GatherOutcome where
  | fragment (frag : Fragment)
  | disabledMark
  | gatherError (err : String)

/-- Modelled from the spec: the host state as observed by the modules,
abstracted as the (read-only, hence fixed for a run) outcome each module's
gather step produces under a given context. -/
structure HostState where
  gather : ModuleName → GatherContext → GatherOutcome

/-- Modelled from the spec: the Fragment Merger folds the ordered
fragment sequence into one Document; modules own disjoint key sets, so
the merge is concatenation in module order. -/
def mergeFragments (frags : List Fragment) : Document :=
  frags.foldl (fun doc frag => doc ++ frag) []

/-- Modelled from the spec: the Assembly Engine's result — the final
Document on success, or the failing module and its error. -/
inductive AssembleResult where
  | succeeded (doc : Document)
  | failed (m : ModuleName) (err : String)

/-- Modelled from the spec: the modules the engine actually iterates —
the fixed order with every module in the disabled set filtered out. -/
def enabledModules (disabledSet : List ModuleName) : List ModuleName :=
  moduleOrder.filter (fun m => !(disabledSet.contains m))

/-- Modelled from the spec: the engine's sequential fold over the
remaining modules — invoke each in order, abort on the first gathering
error (fail-fast), skip disabled contributions, and merge fragments in
module order. -/
def assembleGo (hs : HostState) (ctx : GatherContext) :
    List ModuleName → List Fragment → AssembleResult
  | [], frags => AssembleResult.succeeded (mergeFragments frags)
  | m :: rest, frags =>
      match hs.gather m ctx with
      | GatherOutcome.fragment frag => assembleGo hs ctx rest (frags ++ [frag])
      | GatherOutcome.disabledMark => assembleGo hs ctx rest frags
      | GatherOutcome.gatherError e => AssembleResult.failed m e

/-- Modelled from the spec: the Assembly Engine entry point
`assemble(disabledSet, context) → Document | AssemblyError`. -/
def assemble (hs : HostState) (ctx : GatherContext)
    (disabledSet : List ModuleName) : AssembleResult :=
  assembleGo hs ctx (enabledModules disabledSet) []

/-- Modelled from the spec: the engine's state machine
`Pending → Running(moduleIndex) → Succeeded(Document) | Failed(moduleName, error)`,
with the running state carrying the fragments collected so far. -/
inductive AsmState where
  | pending
  | running (idx : Nat) (frags : List Fragment)
  | succeeded (doc : Document)
  | failed (m : ModuleName) (err : String)

/-- Modelled from the spec: one transition of the Assembly Engine over
the enabled module list `mods`: start, gather a fragment, record a
disabled contribution, fail fast on a gathering error, or merge and
succeed once all modules ran. -/
inductive Step (hs : HostState) (ctx : GatherContext) (mods : List ModuleName) :
    AsmState → AsmState → Prop where
  | start : Step hs ctx mods AsmState.pending (AsmState.running 0 [])
  | gatherFragment (idx : Nat) (m : ModuleName) (frag : Fragment) (frags : List Fragment) :
      mods.get? idx = some m →
      hs.gather m ctx = GatherOutcome.fragment frag →
      Step hs ctx mods (AsmState.running idx frags)
        (AsmState.running (idx + 1) (frags ++ [frag]))
  | gatherDisabled (idx : Nat) (m : ModuleName) (frags : List Fragment) :
      mods.get? idx = some m →
      hs.gather m ctx = GatherOutcome.disabledMark →
      Step hs ctx mods (AsmState.running idx frags) (AsmState.running (idx + 1) frags)
  | gatherFailed (idx : Nat) (m : ModuleName) (e : String) (frags : List Fragment) :
      mods.get? idx = some m →
      hs.gather m ctx = GatherOutcome.gatherError e →
      Step hs ctx mods (AsmState.running idx frags) (AsmState.failed m e)
  | finish (idx : Nat) (frags : List Fragment) :
      mods.get? idx = none →
      Step hs ctx mods (AsmState.running idx frags)
        (AsmState.succeeded (mergeFragments frags))

/-- Reachability in the assembly state machine. -/
def Reaches (hs : HostState) (ctx : GatherContext) (mods : List ModuleName)
    (s t : AsmState) : Prop :=
  Relation.ReflTransGen (Step hs ctx mods) s t

/-- The output path the CLI ends up with in interactive mode without
force: the operator's prompted path when the caller left the default,
otherwise the caller's path (`get_output_path` lines 169-175). -/
def chosenPath (env : Env) (f : Flags) : String :=
  if f.outputPath = default_output_path then env.promptResponse else f.outputPath

/-- Whether a trace contains any `print_warning` output. -/
def hasWarning (evs : List Event) : Bool :=
  evs.any (fun e =>
    match e with
    | Event.printWarning _ => true
    | _ => false)

/-- Whether a trace contains any invocation of the generator. -/
def hasGeneratorCall (evs : List Event) : Bool :=
  evs.any (fun e =>
    match e with
    | Event.generatorCall _ => true
    | _ => false)

/-- Concrete environment: every path exists, prompt answered with
"prompted.yaml", overwrite confirmed. -/
def envAllExist : Env :=
  { pathExists := fun _ => true, promptResponse := "prompted.yaml", confirmResponse := true }

/-- Concrete environment: no path exists. -/
def envNoneExist : Env :=
  { pathExists := fun _ => false, promptResponse := "prompted.yaml", confirmResponse := true }

/-- Concrete environment: every path exists and the operator declines the
overwrite confirmation. -/
def envExistDecline : Env :=
  { pathExists := fun _ => true, promptResponse := "prompted.yaml", confirmResponse := false }

/-- Concrete flags: interactive combined with a disable flag. -/
def flagsConflict : Flags :=
  { defaultFlags with interactive := true, disableApt := true }

/-- Concrete flags: interactive, a disable flag, and force together. -/
def flagsForceConflict : Flags :=
  { defaultFlags with interactive := true, disableApt := true, force := true }

/-- Concrete flags: force alone. -/
def flagsForce : Flags :=
  { defaultFlags with force := true }

/-- Concrete flags: interactive and force together. -/
def flagsInterForce : Flags :=
  { defaultFlags with interactive := true, force := true }

/-- Concrete flags: interactive alone (default output path, no force). -/
def flagsInterPlain : Flags :=
  { defaultFlags with interactive := true }

/-- Concrete flags: interactive with a caller-supplied non-default output
path. -/
def flagsCustomPath : Flags :=
  { defaultFlags with interactive := true, outputPath := "custom.yaml" }

/-- Concrete gather context with every option off. -/
def ctx0 : GatherContext :=
  { interactive := false, gatherPublicKeys := false, password := none,
    renameToUbuntuUser := false }

/-- Concrete host state on which every module reports a disabled
contribution. -/
def hsQuiet : HostState :=
  { gather := fun _ _ => GatherOutcome.disabledMark }

/-- The error text of the concrete failing ssh gather. -/
def sshErrText : String := "permission denied reading ssh directory"

/-- Concrete host state on which the ssh module fails to gather and every
other module reports a disabled contribution. -/
def hsSshFails : HostState :=
  { gather := fun m _ =>
      match m with
      | ModuleName.ssh => GatherOutcome.gatherError sshErrText
      | _ => GatherOutcome.disabledMark }

/-- The disabled set containing every module. -/
def allDisabled : List ModuleName :=
  [ModuleName.apt, ModuleName.snap, ModuleName.ssh, ModuleName.user, ModuleName.hostname]

/-- The disabled set containing every module except apt. -/
def nonAptDisabled : List ModuleName :=
  [ModuleName.snap, ModuleName.ssh, ModuleName.user, ModuleName.hostname]

/-- A concrete apt fragment. -/
def aptFragment : Fragment := [("apt", Value.scalar "sources")]

/-- Concrete host state on which the apt module contributes a fragment
and every other module reports a disabled contribution. -/
def hsAptOnly : HostState :=
  { gather := fun m _ =>
      match m with
      | ModuleName.apt => GatherOutcome.fragment aptFragment
      | _ => GatherOutcome.disabledMark }

/-- C1: if interactive mode is requested together with any explicit
module disable/enable flag, the run reports the conflict and exits with a
non-zero code before any module runs (no generator invocation) and before
any filesystem check or write is performed (no existence check in the
trace). -/
theorem c1_interactive_conflict_exits_early (env : Env) (f : Flags)
    (hi : f.interactive = true)
    (hd : f.disableApt = true ∨ f.disableSnap = true ∨ f.disableSsh = true ∨
      f.disableUser = true ∨ f.enableHostname = true) :
    (cli env f).2 = Outcome.exited 1 ∧
    Event.printError conflictMsg ∈ (cli env f).1 ∧
    (∀ args, Event.generatorCall args ∉ (cli env f).1) ∧
    (∀ p, Event.fsExistsCheck p ∉ (cli env f).1) := by
  have hc : hasConflict f = true := by
    rcases hd with h | h | h | h | h <;> simp [hasConflict, hi, h]
  simp [cli, hc]

/-- Witness for C1 at a concrete input: interactive together with
`--disable-apt`. -/
theorem c1_witness :
    (cli envAllExist flagsConflict).2 = Outcome.exited 1 ∧
    Event.printError conflictMsg ∈ (cli envAllExist flagsConflict).1 ∧
    Event.generatorCall
      { outputPath := default_output_path, interactive := true,
        gatherPublicKeys := false, password := none,
        disabledConfigs := ["apt", "hostname"], renameToUbuntuUser := false,
        quiet := false } ∉ (cli envAllExist flagsConflict).1 ∧
    Event.fsExistsCheck default_output_path ∉ (cli envAllExist flagsConflict).1 := by
  have h := c1_interactive_conflict_exits_early envAllExist flagsConflict rfl (Or.inl rfl)
  exact ⟨h.1, h.2.1, h.2.2.1 _, h.2.2.2 _⟩

/-- C2: in non-interactive mode, when the output path exists and force
was not given, the run prints the error and exits with code 1 without
invoking the generator. -/
theorem c2_existing_output_without_force_exits (env : Env) (f : Flags)
    (hi : f.interactive = false)
    (hex : env.pathExists f.outputPath = true)
    (hf : f.force = false) :
    (cli env f).2 = Outcome.exited 1 ∧
    Event.printError (existsErrMsg f.outputPath) ∈ (cli env f).1 ∧
    (∀ args, Event.generatorCall args ∉ (cli env f).1) := by
  have hc : hasConflict f = false := by simp [hasConflict, hi]
  simp [cli, hc, hi, hex, hf]

/-- Witness for C2 at a concrete input: default flags with an existing
output file. -/
theorem c2_witness :
    (cli envAllExist defaultFlags).2 = Outcome.exited 1 ∧
    Event.printError (existsErrMsg default_output_path) ∈ (cli envAllExist defaultFlags).1 ∧
    Event.generatorCall
      { outputPath := default_output_path, interactive := false,
        gatherPublicKeys := false, password := none,
        disabledConfigs := ["hostname"], renameToUbuntuUser := false,
        quiet := false } ∉ (cli envAllExist defaultFlags).1 := by
  have h := c2_existing_output_without_force_exits envAllExist defaultFlags rfl rfl rfl
  exact ⟨h.1, h.2.1, h.2.2 _⟩

/-- C3: in interactive mode, whenever the overwrite confirmation was
actually posed (the chosen output path existed) and the operator's answer
is to decline, the run exits with code 1 and the generator is never
invoked (so no output file is written). -/
theorem c3_decline_overwrite_aborts (env : Env) (f : Flags)
    (hi : f.interactive = true)
    (hconf : ∃ p, Event.confirmOverwrite p ∈ (cli env f).1)
    (hdecl : env.confirmResponse = false) :
    (cli env f).2 = Outcome.exited 1 ∧
    (∀ args, Event.generatorCall args ∉ (cli env f).1) := by
  obtain ⟨p, hp⟩ := hconf
  by_cases hc : hasConflict f = true
  · simp [cli, hc] at hp
  · rw [Bool.not_eq_true] at hc
    by_cases hf : f.force = true
    · simp [cli, hc, hi, hf] at hp
    · rw [Bool.not_eq_true] at hf
      by_cases hdef : f.outputPath = default_output_path
      · by_cases hex : env.pathExists env.promptResponse = true
        · simp [cli, get_output_path, hc, hi, hf, hdef, hex, hdecl]
        · rw [Bool.not_eq_true] at hex
          simp [cli, get_output_path, hc, hi, hf, hdef, hex] at hp
      · by_cases hex : env.pathExists f.outputPath = true
        · simp [cli, get_output_path, hc, hi, hf, hdef, hex, hdecl]
        · rw [Bool.not_eq_true] at hex
          simp [cli, get_output_path, hc, hi, hf, hdef, hex] at hp

/-- Witness for C3 at a concrete input: interactive mode, existing
default path, operator declines. -/
theorem c3_witness :
    (cli envExistDecline flagsInterPlain).2 = Outcome.exited 1 ∧
    Event.generatorCall
      { outputPath := "prompted.yaml", interactive := true,
        gatherPublicKeys := false, password := none,
        disabledConfigs := ["hostname"], renameToUbuntuUser := false,
        quiet := false } ∉ (cli envExistDecline flagsInterPlain).1 := by
  have h := c3_decline_overwrite_aborts envExistDecline flagsInterPlain rfl
    ⟨"prompted.yaml", by decide⟩ rfl
  exact ⟨h.1, h.2 _⟩

/-- Counterexample to C4 as stated: on a run with no flags at all,
"hostname" is in the disabled set even though the caller passed no
disable flag (there is no hostname disable flag; hostname is disabled by
default unless `--enable-hostname` is passed). -/
theorem c4_counterexample :
    "hostname" ∈ disabled_configs defaultFlags ∧
    defaultFlags.disableApt = false ∧
    defaultFlags.disableSnap = false ∧
    defaultFlags.disableSsh = false ∧
    defaultFlags.disableUser = false ∧
    defaultFlags.enableHostname = false := by
  decide

/-- C4 amended: apt, snap, ssh and user are in the disabled set exactly
when their disable flag was passed, while hostname is in the disabled set
exactly when `--enable-hostname` was NOT passed. -/
theorem c4_amended_disabled_set_exact (f : Flags) :
    ("apt" ∈ disabled_configs f ↔ f.disableApt = true) ∧
    ("snap" ∈ disabled_configs f ↔ f.disableSnap = true) ∧
    ("ssh" ∈ disabled_configs f ↔ f.disableSsh = true) ∧
    ("user" ∈ disabled_configs f ↔ f.disableUser = true) ∧
    ("hostname" ∈ disabled_configs f ↔ f.enableHostname = false) := by
  obtain ⟨i, q, o, fo, eh, g, p, da, dsn, dsh, du, r⟩ := f
  cases da <;> cases dsn <;> cases dsh <;> cases du <;> cases eh <;>
    simp [disabled_configs]

/-- C5: the disabled-module list the CLI constructs is always a
subsequence of the fixed order apt, snap, ssh, user, hostname, and the
module list the engine iterates is always a subsequence of the fixed
module order — both therefore follow exactly this order for every
combination of flags. -/
theorem c5_fixed_module_order :
    (∀ f : Flags, List.Sublist (disabled_configs f) moduleOrderNames) ∧
    (∀ disabledSet : List ModuleName,
      List.Sublist (enabledModules disabledSet) moduleOrder) := by
  constructor
  · intro f
    obtain ⟨i, q, o, fo, eh, g, p, da, dsn, dsh, du, r⟩ := f
    cases da <;> cases dsn <;> cases dsh <;> cases du <;> cases eh <;>
      (simp [disabled_configs, moduleOrderNames]; try decide)
  · intro disabledSet
    exact List.filter_sublist moduleOrder

/-- Counterexample to C8 as stated: with interactive, `--disable-apt` and
force all given, the run exits at the conflict check and no warning at
all is printed, although the force flag was given. -/
theorem c8_counterexample :
    flagsForceConflict.force = true ∧
    hasWarning (cli envAllExist flagsForceConflict).1 = false := by
  constructor
  · rfl
  · simp [cli, hasConflict, flagsForceConflict, defaultFlags, hasWarning]

/-- C8 amended: whenever the force flag is given and the
interactive/disable-enable conflict does not fire, the CLI prints the
already-exists warning for the output path, regardless of whether that
path actually exists on disk. -/
theorem c8_amended_force_always_warns (env : Env) (f : Flags)
    (hf : f.force = true)
    (hc : hasConflict f = false) :
    Event.printWarning (overwriteWarnMsg f.outputPath) ∈ (cli env f).1 := by
  simp [cli, hc, hf]

/-- Witness for C8 amended at a concrete input: force alone, on an
environment where the output path does NOT exist — the warning is printed
anyway. -/
theorem c8_amended_witness :
    flagsForce.force = true ∧
    hasConflict flagsForce = false ∧
    Event.printWarning (overwriteWarnMsg flagsForce.outputPath) ∈
      (cli envNoneExist flagsForce).1 :=
  ⟨rfl, rfl, c8_amended_force_always_warns envNoneExist flagsForce rfl rfl⟩

/-- Counterexample to C9 as stated: with interactive, force and
`--disable-apt` together, the conflict check exits first, so the
generator is NOT invoked although interactive and force were both
given. -/
theorem c9_counterexample :
    flagsForceConflict.interactive = true ∧
    flagsForceConflict.force = true ∧
    hasGeneratorCall (cli envAllExist flagsForceConflict).1 = false := by
  refine ⟨rfl, rfl, ?_⟩
  simp [cli, hasConflict, flagsForceConflict, defaultFlags, hasGeneratorCall]

/-- C9 amended: in interactive mode with force, `get_output_path` is
never reached — no path prompt, no overwrite confirmation, no selection
info message — and, provided the disable/enable conflict does not fire,
the generator is invoked directly with the given (or default) output
path. -/
theorem c9_amended_interactive_force_skips_prompt (env : Env) (f : Flags)
    (_hi : f.interactive = true)
    (hf : f.force = true) :
    Event.promptPath ∉ (cli env f).1 ∧
    (∀ p, Event.confirmOverwrite p ∉ (cli env f).1) ∧
    (∀ m, Event.printInfo m ∉ (cli env f).1) ∧
    (hasConflict f = false →
      Event.generatorCall
        { outputPath := f.outputPath, interactive := f.interactive,
          gatherPublicKeys := f.gatherPublicKeys, password := f.password,
          disabledConfigs := disabled_configs f,
          renameToUbuntuUser := f.renameToUbuntuUser,
          quiet := f.quiet } ∈ (cli env f).1) := by
  by_cases hc : hasConflict f = true
  · simp [cli, hc]
  · rw [Bool.not_eq_true] at hc
    simp [cli, hc, hf]

/-- Witness for C9 amended at a concrete input: interactive and force
together with default remaining flags. -/
theorem c9_amended_witness :
    Event.promptPath ∉ (cli envAllExist flagsInterForce).1 ∧
    Event.confirmOverwrite default_output_path ∉ (cli envAllExist flagsInterForce).1 ∧
    Event.printInfo (selectedInfoMsg default_output_path) ∉
      (cli envAllExist flagsInterForce).1 ∧
    Event.generatorCall
      { outputPath := flagsInterForce.outputPath, interactive := true,
        gatherPublicKeys := false, password := none,
        disabledConfigs := disabled_configs flagsInterForce,
        renameToUbuntuUser := false,
        quiet := false } ∈ (cli envAllExist flagsInterForce).1 := by
  have h := c9_amended_interactive_force_skips_prompt envAllExist flagsInterForce rfl rfl
  exact ⟨h.1, h.2.1 _, h.2.2.1 _, h.2.2.2 rfl⟩

/-- C10: in interactive mode without force (and without the flag
conflict), the operator is prompted for a path exactly when the caller
left the default path; the chosen path is the prompted one in that case
and the caller's path otherwise; the overwrite confirmation on an
existing chosen path is posed in both cases; and when the run completes,
the generator receives exactly the chosen path. -/
theorem c10_prompt_only_on_default_path (env : Env) (f : Flags)
    (hi : f.interactive = true)
    (hf : f.force = false)
    (hc : hasConflict f = false) :
    (Event.promptPath ∈ (cli env f).1 ↔ f.outputPath = default_output_path) ∧
    (env.pathExists (chosenPath env f) = true →
      Event.confirmOverwrite (chosenPath env f) ∈ (cli env f).1) ∧
    ((cli env f).2 = Outcome.completed →
      Event.generatorCall
        { outputPath := chosenPath env f, interactive := f.interactive,
          gatherPublicKeys := f.gatherPublicKeys, password := f.password,
          disabledConfigs := disabled_configs f,
          renameToUbuntuUser := f.renameToUbuntuUser,
          quiet := f.quiet } ∈ (cli env f).1) := by
  by_cases hdef : f.outputPath = default_output_path
  · by_cases hex : env.pathExists env.promptResponse = true
    · by_cases hok : env.confirmResponse = true
      · simp [cli, get_output_path, chosenPath, hc, hi, hf, hdef, hex, hok]
      · rw [Bool.not_eq_true] at hok
        simp [cli, get_output_path, chosenPath, hc, hi, hf, hdef, hex, hok]
    · rw [Bool.not_eq_true] at hex
      simp [cli, get_output_path, chosenPath, hc, hi, hf, hdef, hex]
  · by_cases hex : env.pathExists f.outputPath = true
    · by_cases hok : env.confirmResponse = true
      · simp [cli, get_output_path, chosenPath, hc, hi, hf, hdef, hex, hok]
      · rw [Bool.not_eq_true] at hok
        simp [cli, get_output_path, chosenPath, hc, hi, hf, hdef, hex, hok]
    · rw [Bool.not_eq_true] at hex
      simp [cli, get_output_path, chosenPath, hc, hi, hf, hdef, hex]

/-- Witness for C10 at a concrete input: interactive without force, a
caller-supplied non-default path, every path existing, overwrite
confirmed. -/
theorem c10_witness :
    (Event.promptPath ∈ (cli envAllExist flagsCustomPath).1 ↔
      flagsCustomPath.outputPath = default_output_path) ∧
    (envAllExist.pathExists (chosenPath envAllExist flagsCustomPath) = true →
      Event.confirmOverwrite (chosenPath envAllExist flagsCustomPath) ∈
        (cli envAllExist flagsCustomPath).1) ∧
    ((cli envAllExist flagsCustomPath).2 = Outcome.completed →
      Event.generatorCall
        { outputPath := chosenPath envAllExist flagsCustomPath,
          interactive := flagsCustomPath.interactive,
          gatherPublicKeys := flagsCustomPath.gatherPublicKeys,
          password := flagsCustomPath.password,
          disabledConfigs := disabled_configs flagsCustomPath,
          renameToUbuntuUser := flagsCustomPath.renameToUbuntuUser,
          quiet := flagsCustomPath.quiet } ∈ (cli envAllExist flagsCustomPath).1) :=
  c10_prompt_only_on_default_path envAllExist flagsCustomPath rfl rfl rfl

/-- The assembly step relation is functional: from any state at most one
transition is possible. -/
theorem step_deterministic (hs : HostState) (ctx : GatherContext)
    (mods : List ModuleName) {s t u : AsmState}
    (h1 : Step hs ctx mods s t) (h2 : Step hs ctx mods s u) : t = u := by
  cases h1 <;> cases h2 <;> simp_all [List.getElem?_eq_none]

/-- A succeeded state has no outgoing transition. -/
theorem succeeded_no_step (hs : HostState) (ctx : GatherContext)
    (mods : List ModuleName) (d : Document) :
    ∀ u, ¬ Step hs ctx mods (AsmState.succeeded d) u := by
  intro u h
  cases h

/-- A deterministic relation reaches at most one terminal element from
any starting element. -/
theorem deterministic_unique_terminal {α : Type} {r : α → α → Prop}
    (hdet : ∀ s t u, r s t → r s u → t = u)
    {b c : α} (hb : ∀ u, ¬ r b u) (hc : ∀ u, ¬ r c u) :
    ∀ {a : α}, Relation.ReflTransGen r a b → Relation.ReflTransGen r a c → b = c := by
  intro a hab
  induction hab using Relation.ReflTransGen.head_induction_on with
  | refl =>
      intro hbc
      rcases Relation.ReflTransGen.cases_head hbc with h | ⟨d, hbd, _⟩
      · exact h
      · exact absurd hbd (hb d)
  | head hstep hrest ih =>
      intro hac
      rcases Relation.ReflTransGen.cases_head hac with h | ⟨d, had, hdc⟩
      · subst h
        exact absurd hstep (hc _)
      · have hd := hdet _ _ _ hstep had
        subst hd
        exact ih hdc

/-- C6: the assembly engine is deterministic — for a fixed host state,
context and disabled set, any two complete runs of the engine's state
machine from Pending that end in Succeeded carry identical Documents. -/
theorem c6_assemble_deterministic (hs : HostState) (ctx : GatherContext)
    (disabledSet : List ModuleName) (d1 d2 : Document)
    (h1 : Reaches hs ctx (enabledModules disabledSet)
      AsmState.pending (AsmState.succeeded d1))
    (h2 : Reaches hs ctx (enabledModules disabledSet)
      AsmState.pending (AsmState.succeeded d2)) :
    d1 = d2 := by
  have h := @deterministic_unique_terminal AsmState
    (Step hs ctx (enabledModules disabledSet))
    (fun s t u hst hsu => step_deterministic hs ctx (enabledModules disabledSet) hst hsu)
    (AsmState.succeeded d1) (AsmState.succeeded d2)
    (succeeded_no_step hs ctx (enabledModules disabledSet) d1)
    (succeeded_no_step hs ctx (enabledModules disabledSet) d2)
    AsmState.pending h1 h2
  exact AsmState.succeeded.inj h

/-- Witness for C6 at a concrete input: two complete runs on a host state
where only apt is enabled and contributes a fragment. -/
theorem c6_witness :
    mergeFragments [aptFragment] = mergeFragments [aptFragment] :=
  c6_assemble_deterministic hsAptOnly ctx0 nonAptDisabled
    (mergeFragments [aptFragment]) (mergeFragments [aptFragment])
    (Relation.ReflTransGen.head Step.start
      (Relation.ReflTransGen.head
        (Step.gatherFragment 0 ModuleName.apt aptFragment [] rfl rfl)
        (Relation.ReflTransGen.single (Step.finish 1 [aptFragment] rfl))))
    (Relation.ReflTransGen.head Step.start
      (Relation.ReflTransGen.head
        (Step.gatherFragment 0 ModuleName.apt aptFragment [] rfl rfl)
        (Relation.ReflTransGen.single (Step.finish 1 [aptFragment] rfl))))

/-- Running the engine fold over a module list that starts with
error-free modules and then hits a module whose gather errors yields
exactly that module's failure. -/
theorem assembleGo_first_error (hs : HostState) (ctx : GatherContext)
    (m : ModuleName) (e : String) (post : List ModuleName)
    (hm : hs.gather m ctx = GatherOutcome.gatherError e) :
    ∀ (pre : List ModuleName) (frags : List Fragment),
      (∀ x ∈ pre, ∀ e2, hs.gather x ctx ≠ GatherOutcome.gatherError e2) →
      assembleGo hs ctx (pre ++ m :: post) frags = AssembleResult.failed m e := by
  intro pre
  induction pre with
  | nil =>
      intro frags _
      simp [assembleGo, hm]
  | cons x xs ih =>
      intro frags hpre
      have hx := hpre x (by simp)
      cases hgx : hs.gather x ctx with
      | fragment fr =>
          simpa [assembleGo, hgx] using ih (frags ++ [fr]) (fun y hy => hpre y (by simp [hy]))
      | disabledMark =>
          simpa [assembleGo, hgx] using ih frags (fun y hy => hpre y (by simp [hy]))
      | gatherError e2 =>
          exact absurd hgx (hx e2)

/-- C7: if the run reaches a module whose gather step errors (all enabled
modules before it gathered without error), the whole assembly fails
identifying that module, and no Document — not even a partial one — is
returned. -/
theorem c7_fail_fast_no_partial_document (hs : HostState) (ctx : GatherContext)
    (disabledSet : List ModuleName) (m : ModuleName) (e : String)
    (pre post : List ModuleName)
    (hsplit : enabledModules disabledSet = pre ++ m :: post)
    (hpre : ∀ x ∈ pre, ∀ e2, hs.gather x ctx ≠ GatherOutcome.gatherError e2)
    (hm : hs.gather m ctx = GatherOutcome.gatherError e) :
    assemble hs ctx disabledSet = AssembleResult.failed m e ∧
    ∀ d, assemble hs ctx disabledSet ≠ AssembleResult.succeeded d := by
  have h : assemble hs ctx disabledSet = AssembleResult.failed m e := by
    rw [assemble, hsplit]
    exact assembleGo_first_error hs ctx m e post hm pre [] hpre
  refine ⟨h, ?_⟩
  intro d hd
  rw [h] at hd
  exact AssembleResult.noConfusion hd

/-- Witness for C7 at a concrete input: the ssh module fails to gather
while apt and snap reported disabled contributions; the run fails
identifying ssh and returns no document. -/
theorem c7_witness :
    assemble hsSshFails ctx0 [] = AssembleResult.failed ModuleName.ssh sshErrText ∧
    assemble hsSshFails ctx0 [] ≠ AssembleResult.succeeded [] := by
  have h := c7_fail_fast_no_partial_document hsSshFails ctx0 [] ModuleName.ssh sshErrText
    [ModuleName.apt, ModuleName.snap] [ModuleName.user, ModuleName.hostname]
    rfl
    (by
      intro x hx e2
      fin_cases hx <;> simp [hsSshFails])
    rfl
  exact ⟨h.1, h.2 []⟩

end NotCloudInit
